import Mathlib

/-!
Shallow embedding of the hotel-booking service core
(routes/hotels.ts, routes/users.ts, middleware/auth.ts, routes/sendEmail.ts).

The OTP identity-verification state machine and the two-phase payment
reconciliation workflow are modelled as pure functions over explicit state;
timestamps are milliseconds since epoch (`Nat`), randomness is an explicit
`Nat` source argument, and the outcome of the awaited e-mail delivery is an
explicit `Bool` argument.
-/

namespace HotelApp

/-! ### OTP identity verification (routes/users.ts) -/

/-- Node's `crypto.randomInt(lo, hi)` returns a uniformly random integer in
the half-open range `[lo, hi)`.  The random source `r` is made explicit. -/
def randomInt (lo hi r : Nat) : Nat := lo + r % (hi - lo)

/-- The OTP generator used by both `/register` and `/resend-otp`:
`crypto.randomInt(100000, 999999)`. -/
def genOtp (r : Nat) : Nat := randomInt 100000 999999 r

/-- A user document (models/user): registration spreads the request body and
adds the OTP fields. -/
structure User where
  firstName : String
  lastName : String
  email : String
  password : String
  isVerified : Bool
  otp : Option String
  otpExpiry : Option Nat
deriving DecidableEq

/-- The validated body of `POST /register`. -/
structure RegisterBody where
  firstName : String
  lastName : String
  email : String
  password : String
deriving DecidableEq

/-- The user document built by `POST /register`:
`new User({...req.body, otp, otpExpiry: Date.now() + 10*60*1000, isVerified: false})`. -/
def newUser (body : RegisterBody) (r now : Nat) : User :=
  { firstName := body.firstName
    lastName := body.lastName
    email := body.email
    password := body.password
    isVerified := false
    otp := some (toString (genOtp r))
    otpExpiry := some (now + 10 * 60 * 1000) }

inductive RegisterResult
  | userAlreadyExists
  | registered (u : User)
deriving DecidableEq

/-- `POST /register`: `existing` is the result of `User.findOne({email})`. -/
def register (existing : Option User) (body : RegisterBody) (r now : Nat) :
    RegisterResult :=
  match existing with
  | some _ => .userAlreadyExists
  | none => .registered (newUser body r now)

inductive VerifyResult
  | userNotFound
  | alreadyVerified
  | otpNotGenerated
  | invalidOtp
  | otpExpired
  | verified
deriving DecidableEq

/-- `POST /verify-email`: `user` is the result of `User.findOne({email})`;
returns the response kind and the stored user document afterwards.
JS truthiness: `!user.otp` also holds for the empty string, hence the
`isEmpty` guard mirroring `if (!user.otp || !user.otpExpiry)`. -/
def verifyEmail (user : Option User) (submitted : String) (now : Nat) :
    VerifyResult × Option User :=
  match user with
  | none => (.userNotFound, none)
  | some u =>
    if u.isVerified then (.alreadyVerified, some u)
    else
      match u.otp, u.otpExpiry with
      | some code, some exp =>
        if code.isEmpty then (.otpNotGenerated, some u)
        else if code ≠ submitted then (.invalidOtp, some u)
        else if exp < now then (.otpExpired, some u)
        else (.verified,
          some { u with isVerified := true, otp := none, otpExpiry := none })
      | _, _ => (.otpNotGenerated, some u)

inductive ResendResult
  | userNotFound
  | alreadyVerified
  | resent (u : User)
deriving DecidableEq

/-- `POST /resend-otp`: overwrites both OTP fields with a fresh code and a
fresh 10-minute expiry. -/
def resendOtp (user : Option User) (r now : Nat) : ResendResult :=
  match user with
  | none => .userNotFound
  | some u =>
    if u.isVerified then .alreadyVerified
    else .resent
      { u with otp := some (toString (genOtp r))
               otpExpiry := some (now + 10 * 60 * 1000) }

/-- Data-model invariant from the spec: the OTP secret and the OTP expiry
are either both present or both absent. -/
def otpInvariant (u : User) : Prop := u.otp.isSome = u.otpExpiry.isSome

/-! ### Payment reconciliation workflow (routes/hotels.ts) -/

/-- A booking record (shared/types BookingType); also the shape of the
booking fields of the `POST /:hotelId/bookings` request body that are spread
into the new record, including a client-supplied `userId` field. -/
structure Booking where
  firstName : String
  lastName : String
  email : String
  adultCount : Nat
  childCount : Nat
  checkIn : String
  checkOut : String
  totalCost : Nat
  userId : String
deriving DecidableEq

/-- A hotel document with its append-only booking collection. -/
structure Hotel where
  id : String
  name : String
  pricePerNight : Nat
  bookings : List Booking
deriving DecidableEq

/-- A provider-held payment intent: status and metadata are owned by the
provider and fetched live, never trusted from the client. -/
structure PaymentIntent where
  id : String
  status : String
  metadataHotelId : String
  metadataUserId : String
  clientSecret : Option String
deriving DecidableEq

/-- The argument object passed to `stripe.paymentIntents.create`. -/
structure PaymentIntentCreateParams where
  amount : Nat
  currency : String
  metadataHotelId : String
  metadataUserId : String
deriving DecidableEq

/-- The response body of `POST /:hotelId/bookings/payment-intent`. -/
structure IntentResponse where
  paymentIntentId : String
  clientSecret : String
  totalCost : Nat
deriving DecidableEq

/-- What the provider mints for a create call: a fresh id and an optional
client-side completion secret. -/
structure StripeCreateResult where
  id : String
  clientSecret : Option String
deriving DecidableEq

inductive CreateIntentResult
  | hotelNotFound
  | intentCreationError
  | ok (resp : IntentResponse)
deriving DecidableEq

/-- `Hotel.findById` over the hotel store. -/
def findHotel (hotels : List Hotel) (hid : String) : Option Hotel :=
  hotels.find? fun h => decide (h.id = hid)

/-- Phase 1, `POST /:hotelId/bookings/payment-intent`: computes
`totalCost = pricePerNight * numberOfNights`, asks the provider for an
intent of `totalCost * 100` minor units of "gbp" with `{hotelId, userId}`
metadata, and returns the id, client secret and computed total.  The second
component records the params sent to the provider (`none` when no provider
call was made). -/
def createIntent (hotels : List Hotel) (hotelIdParam : String)
    (numberOfNights : Nat) (authUserId : String)
    (provider : StripeCreateResult) :
    CreateIntentResult × Option PaymentIntentCreateParams :=
  match findHotel hotels hotelIdParam with
  | none => (.hotelNotFound, none)
  | some hotel =>
    let totalCost := hotel.pricePerNight * numberOfNights
    let params : PaymentIntentCreateParams :=
      { amount := totalCost * 100
        currency := "gbp"
        metadataHotelId := hotelIdParam
        metadataUserId := authUserId }
    match provider.clientSecret with
    | none => (.intentCreationError, some params)
    | some secret =>
      (.ok { paymentIntentId := provider.id
             clientSecret := secret
             totalCost := totalCost }, some params)

inductive ConfirmResult
  | intentNotFound
  | contextMismatch
  | paymentNotSucceeded (message : String)
  | hotelNotFound
  | serverError
  | success
deriving DecidableEq

/-- `stripe.paymentIntents.retrieve` over the provider's intent store. -/
def retrieveIntent (intents : List PaymentIntent) (pid : String) :
    Option PaymentIntent :=
  intents.find? fun p => decide (p.id = pid)

/-- The `POST /:hotelId/bookings` request after the `verifyToken`
middleware: `authUserId` is `req.userId`, resolved from the bearer token,
never from the body. -/
structure ConfirmRequest where
  hotelIdParam : String
  authUserId : String
  paymentIntentId : String
  body : Booking
deriving DecidableEq

/-- `const newBooking = { ...req.body, userId: req.userId }`: the spread
body's own `userId` is overridden by the token-derived one. -/
def mkBooking (body : Booking) (authUserId : String) : Booking :=
  { body with userId := authUserId }

/-- `Hotel.findOneAndUpdate({_id}, {$push: {bookings}})`: appends to the
first hotel whose id matches; no-op when none matches. -/
def pushBooking : List Hotel → String → Booking → List Hotel
  | [], _, _ => []
  | h :: t, hid, b =>
    if h.id = hid then { h with bookings := h.bookings ++ [b] } :: t
    else h :: pushBooking t hid b

/-- Whether some hotel in the store has the given id (i.e. whether
`findOneAndUpdate` matches a document). -/
def hotelExists (hotels : List Hotel) (hid : String) : Bool :=
  hotels.any fun h => decide (h.id = hid)

/-- Phase 2, `POST /:hotelId/bookings`: retrieve the intent, check
metadata against the request's hotel id and the token-derived user id,
check `status === "succeeded"`, push the booking, then `await sendEmail`;
`emailOk` is the outcome of that awaited delivery — when it throws, the
route's catch block answers 500, but the already-pushed booking stays. -/
def confirmBooking (intents : List PaymentIntent) (hotels : List Hotel)
    (req : ConfirmRequest) (emailOk : Bool) : ConfirmResult × List Hotel :=
  match retrieveIntent intents req.paymentIntentId with
  | none => (.intentNotFound, hotels)
  | some pi =>
    if pi.metadataHotelId ≠ req.hotelIdParam ∨
        pi.metadataUserId ≠ req.authUserId then
      (.contextMismatch, hotels)
    else if pi.status ≠ "succeeded" then
      (.paymentNotSucceeded
        ("payment intent not succeeded. Status: " ++ pi.status), hotels)
    else if hotelExists hotels req.hotelIdParam then
      let hotels' :=
        pushBooking hotels req.hotelIdParam (mkBooking req.body req.authUserId)
      if emailOk then (.success, hotels') else (.serverError, hotels')
    else (.hotelNotFound, hotels)

/-- Total number of booking records held by hotels with the given id. -/
def bookingCount : List Hotel → String → Nat
  | [], _ => 0
  | h :: t, hid =>
    (if h.id = hid then h.bookings.length else 0) + bookingCount t hid

/-- Repeated `POST /:hotelId/bookings` calls with an unchanged provider
store and an unchanged request. -/
def confirmNTimes (intents : List PaymentIntent) (req : ConfirmRequest)
    (emailOk : Bool) : Nat → List Hotel → List Hotel
  | 0, hotels => hotels
  | n + 1, hotels =>
    confirmNTimes intents req emailOk n
      (confirmBooking intents hotels req emailOk).2

/-! ### Helper lemmas -/

theorem verifyEmail_snd (u : User) (s : String) (now : Nat) :
    (verifyEmail (some u) s now).2 = some u ∨
    (verifyEmail (some u) s now).2 =
      some { u with isVerified := true, otp := none, otpExpiry := none } := by
  rcases hotp : u.otp with _ | code <;>
    rcases hexp : u.otpExpiry with _ | exp <;>
    by_cases hv : u.isVerified <;>
    simp only [verifyEmail, hotp, hexp, hv] <;>
    (try split_ifs) <;> simp

theorem pushBooking_ids (hs : List Hotel) (hid : String) (b : Booking) :
    (pushBooking hs hid b).map Hotel.id = hs.map Hotel.id := by
  induction hs with
  | nil => rfl
  | cons h t ih =>
    by_cases hh : h.id = hid <;> simp [pushBooking, hh, ih]

theorem hotelExists_pushBooking (hs : List Hotel) (hid hid' : String)
    (b : Booking) :
    hotelExists (pushBooking hs hid b) hid' = hotelExists hs hid' := by
  induction hs with
  | nil => rfl
  | cons h t ih =>
    unfold hotelExists at ih ⊢
    by_cases hh : h.id = hid <;> simp [pushBooking, hh, ih]

theorem bookingCount_pushBooking (hs : List Hotel) (hid : String)
    (b : Booking) (hex : hotelExists hs hid = true) :
    bookingCount (pushBooking hs hid b) hid = bookingCount hs hid + 1 := by
  induction hs with
  | nil => simp [hotelExists] at hex
  | cons h t ih =>
    by_cases hh : h.id = hid
    · simp [pushBooking, bookingCount, hh]
      omega
    · have hex' : hotelExists t hid = true := by
        simpa [hotelExists, hh] using hex
      simp [pushBooking, bookingCount, hh, ih hex']

/-! ### Claim theorems: OTP state machine -/

/-- C4, counterexample: the claim says 999999 is a possible OTP value, but
`crypto.randomInt(100000, 999999)` is exclusive of its upper bound, so the
generator never produces 999999. -/
theorem otp_999999_unreachable : ¬ ∃ r, genOtp r = 999999 := by
  rintro ⟨r, hr⟩
  unfold genOtp randomInt at hr
  have hlt : r % (999999 - 100000) < 899999 := Nat.mod_lt _ (by norm_num)
  omega

/-- C4 (amended): every OTP value generated by registration or resend lies
in 100000..999998 inclusive, every value in that range is attainable, and
both `register` and `resendOtp` store exactly the generated value. -/
theorem otp_range_correct :
    (∀ r, 100000 ≤ genOtp r ∧ genOtp r ≤ 999998) ∧
    (∀ v, 100000 ≤ v → v ≤ 999998 → ∃ r, genOtp r = v) ∧
    (∀ body r now, ∃ u, register none body r now = .registered u ∧
      u.otp = some (toString (genOtp r))) ∧
    (∀ u r now, u.isVerified = false →
      ∃ u', resendOtp (some u) r now = .resent u' ∧
        u'.otp = some (toString (genOtp r))) := by
  refine ⟨?_, ?_, ?_, ?_⟩
  · intro r
    unfold genOtp randomInt
    have hlt : r % (999999 - 100000) < 899999 := Nat.mod_lt _ (by norm_num)
    omega
  · intro v h1 h2
    refine ⟨v - 100000, ?_⟩
    unfold genOtp randomInt
    have : (v - 100000) % (999999 - 100000) = v - 100000 :=
      Nat.mod_eq_of_lt (by omega)
    omega
  · intro body r now
    exact ⟨newUser body r now, rfl, rfl⟩
  · intro u r now hv
    refine ⟨{ u with otp := some (toString (genOtp r))
                     otpExpiry := some (now + 10 * 60 * 1000) }, ?_, rfl⟩
    simp [resendOtp, hv]

/-- C4, witness for the amended theorem: 999998 is attainable. -/
theorem otp_range_correct_witness : ∃ r, genOtp r = 999998 :=
  otp_range_correct.2.1 999998 (by norm_num) (by norm_num)

/-- C5, counterexample: at exactly issuance + 10 minutes (expiry instant
600000 with issuance at 0), a matching code is still accepted, because the
code only rejects when `otpExpiry < now` strictly. -/
theorem verify_at_exact_expiry_succeeds :
    verifyEmail
      (some { firstName := "a", lastName := "b", email := "e@x",
              password := "secret12", isVerified := false,
              otp := some "123456", otpExpiry := some 600000 })
      "123456" 600000
    = (.verified,
       some { firstName := "a", lastName := "b", email := "e@x",
              password := "secret12", isVerified := true,
              otp := none, otpExpiry := none }) := by
  rfl

/-- C5 (amended): with a live nonempty challenge and a matching code, any
verify attempt at a clock time strictly after the stored expiry fails with
`ChallengeExpired` and leaves the user unchanged. -/
theorem verify_after_expiry_fails (u : User) (code : String) (now exp : Nat)
    (hver : u.isVerified = false) (hotp : u.otp = some code)
    (hne : code.isEmpty = false) (hexp : u.otpExpiry = some exp)
    (hlate : exp < now) :
    verifyEmail (some u) code now = (.otpExpired, some u) := by
  simp [verifyEmail, hver, hotp, hexp, hne, hlate]

/-- C5, witness: one millisecond past expiry the matching code is
rejected as expired. -/
theorem verify_after_expiry_fails_witness :
    verifyEmail
      (some { firstName := "a", lastName := "b", email := "e@x",
              password := "secret12", isVerified := false,
              otp := some "123456", otpExpiry := some 600000 })
      "123456" 600001
    = (.otpExpired,
       some { firstName := "a", lastName := "b", email := "e@x",
              password := "secret12", isVerified := false,
              otp := some "123456", otpExpiry := some 600000 }) :=
  verify_after_expiry_fails _ _ _ _ rfl rfl rfl rfl (by norm_num)

/-- C7: a verify attempt against an already-verified identity fails with
`AlreadyVerified` for every submitted code and clock time, and the stored
user is unchanged. -/
theorem verify_already_verified (u : User) (submitted : String) (now : Nat)
    (h : u.isVerified = true) :
    verifyEmail (some u) submitted now = (.alreadyVerified, some u) := by
  simp [verifyEmail, h]

/-- C7, witness: a second verify attempt with the very code that succeeded
is rejected. -/
theorem verify_already_verified_witness :
    verifyEmail
      (some { firstName := "a", lastName := "b", email := "e@x",
              password := "secret12", isVerified := true,
              otp := none, otpExpiry := none })
      "123456" 0
    = (.alreadyVerified,
       some { firstName := "a", lastName := "b", email := "e@x",
              password := "secret12", isVerified := true,
              otp := none, otpExpiry := none }) :=
  verify_already_verified _ _ _ rfl

/-- C9: registration and resend set the OTP secret and expiry together,
and every verify outcome preserves the both-present-or-both-absent
invariant (success clears both together). -/
theorem otp_fields_invariant :
    (∀ body r now u, register none body r now = .registered u →
      otpInvariant u) ∧
    (∀ u r now u', resendOtp (some u) r now = .resent u' →
      otpInvariant u') ∧
    (∀ u s now res u', otpInvariant u →
      verifyEmail (some u) s now = (res, some u') → otpInvariant u') := by
  refine ⟨?_, ?_, ?_⟩
  · intro body r now u h
    simp [register] at h
    subst h
    rfl
  · intro u r now u' h
    by_cases hv : u.isVerified <;> simp [resendOtp, hv] at h
    subst h
    rfl
  · intro u s now res u' hinv h
    have h2 := verifyEmail_snd u s now
    rw [h] at h2
    rcases h2 with h2 | h2 <;> simp only [] at h2 <;>
      rcases Option.some_inj.mp h2 with rfl
    · exact hinv
    · rfl

/-- C9, witness: the invariant holds for a freshly registered user, for a
user after resend, and for a user after successful verification. -/
theorem otp_fields_invariant_witness :
    otpInvariant
      (newUser { firstName := "a", lastName := "b", email := "e@x",
                 password := "secret12" } 0 0) ∧
    otpInvariant
      { firstName := "a", lastName := "b", email := "e@x",
        password := "secret12", isVerified := false,
        otp := some "100000", otpExpiry := some 600000 } ∧
    otpInvariant
      { firstName := "a", lastName := "b", email := "e@x",
        password := "secret12", isVerified := true,
        otp := none, otpExpiry := none } :=
  ⟨otp_fields_invariant.1
      { firstName := "a", lastName := "b", email := "e@x",
        password := "secret12" } 0 0 _ rfl,
   otp_fields_invariant.2.1
      { firstName := "a", lastName := "b", email := "e@x",
        password := "secret12", isVerified := false,
        otp := some "999999", otpExpiry := some 0 } 0 0 _ rfl,
   otp_fields_invariant.2.2
      { firstName := "a", lastName := "b", email := "e@x",
        password := "secret12", isVerified := false,
        otp := some "123456", otpExpiry := some 600000 } "123456" 0
      .verified _ rfl rfl⟩

/-! ### Claim theorems: payment reconciliation workflow -/

theorem confirmBooking_checks_pass (intents : List PaymentIntent)
    (hotels : List Hotel) (req : ConfirmRequest) (emailOk : Bool)
    (pi : PaymentIntent)
    (hret : retrieveIntent intents req.paymentIntentId = some pi)
    (hhid : pi.metadataHotelId = req.hotelIdParam)
    (huid : pi.metadataUserId = req.authUserId)
    (hst : pi.status = "succeeded")
    (hex : hotelExists hotels req.hotelIdParam = true) :
    confirmBooking intents hotels req emailOk =
      ((if emailOk then ConfirmResult.success else ConfirmResult.serverError),
       pushBooking hotels req.hotelIdParam
         (mkBooking req.body req.authUserId)) := by
  cases emailOk <;> simp [confirmBooking, hret, hhid, huid, hst, hex]

theorem confirmNTimes_count (intents : List PaymentIntent)
    (req : ConfirmRequest) (pi : PaymentIntent)
    (hret : retrieveIntent intents req.paymentIntentId = some pi)
    (hhid : pi.metadataHotelId = req.hotelIdParam)
    (huid : pi.metadataUserId = req.authUserId)
    (hst : pi.status = "succeeded") :
    ∀ n (hotels : List Hotel), hotelExists hotels req.hotelIdParam = true →
      bookingCount (confirmNTimes intents req true n hotels) req.hotelIdParam
        = bookingCount hotels req.hotelIdParam + n := by
  intro n
  induction n with
  | zero => intro hotels hex; simp [confirmNTimes]
  | succ n ih =>
    intro hotels hex
    have hstep :=
      confirmBooking_checks_pass intents hotels req true pi hret hhid huid hst hex
    have hex' : hotelExists
        (pushBooking hotels req.hotelIdParam (mkBooking req.body req.authUserId))
        req.hotelIdParam = true := by
      rw [hotelExists_pushBooking]; exact hex
    simp only [confirmNTimes, hstep, if_pos]
    rw [ih _ hex', bookingCount_pushBooking _ _ _ hex]
    omega

/-- C1: whenever the provider-held metadata's hotelId or userId differs
from the request's hotelId or the token-derived caller identity, the
confirmation fails with the mismatch error and the hotel store is returned
unchanged — no booking is appended anywhere. -/
theorem confirm_context_mismatch (intents : List PaymentIntent)
    (hotels : List Hotel) (req : ConfirmRequest) (emailOk : Bool)
    (pi : PaymentIntent)
    (hret : retrieveIntent intents req.paymentIntentId = some pi)
    (hmis : pi.metadataHotelId ≠ req.hotelIdParam ∨
            pi.metadataUserId ≠ req.authUserId) :
    confirmBooking intents hotels req emailOk =
      (.contextMismatch, hotels) := by
  simp only [confirmBooking, hret]
  rw [if_pos hmis]

/-- C1, witness: an authorization minted for hotel h2 replayed against
hotel h1 is rejected and the store is untouched. -/
theorem confirm_context_mismatch_witness :
    confirmBooking
      [{ id := "pi1", status := "succeeded", metadataHotelId := "h2",
         metadataUserId := "u1", clientSecret := some "cs" }]
      [{ id := "h1", name := "H", pricePerNight := 100, bookings := [] }]
      { hotelIdParam := "h1", authUserId := "u1", paymentIntentId := "pi1",
        body := { firstName := "f", lastName := "l", email := "e@x",
                  adultCount := 2, childCount := 0, checkIn := "ci",
                  checkOut := "co", totalCost := 300, userId := "u1" } }
      true
    = (.contextMismatch,
       [{ id := "h1", name := "H", pricePerNight := 100, bookings := [] }]) :=
  confirm_context_mismatch _ _ _ _ _ rfl (Or.inl (by decide))

/-- C2, counterexample: with every check passing and the awaited e-mail
delivery throwing, the route's catch block answers 500 (`serverError`),
not success — even though the booking has already been appended. -/
theorem email_failure_reports_500 :
    (confirmBooking
      [{ id := "pi1", status := "succeeded", metadataHotelId := "h1",
         metadataUserId := "u1", clientSecret := some "cs" }]
      [{ id := "h1", name := "H", pricePerNight := 100, bookings := [] }]
      { hotelIdParam := "h1", authUserId := "u1", paymentIntentId := "pi1",
        body := { firstName := "f", lastName := "l", email := "e@x",
                  adultCount := 2, childCount := 0, checkIn := "ci",
                  checkOut := "co", totalCost := 300, userId := "u1" } }
      false).1 = ConfirmResult.serverError ∧
    ConfirmResult.serverError ≠ ConfirmResult.success ∧
    (confirmBooking
      [{ id := "pi1", status := "succeeded", metadataHotelId := "h1",
         metadataUserId := "u1", clientSecret := some "cs" }]
      [{ id := "h1", name := "H", pricePerNight := 100, bookings := [] }]
      { hotelIdParam := "h1", authUserId := "u1", paymentIntentId := "pi1",
        body := { firstName := "f", lastName := "l", email := "e@x",
                  adultCount := 2, childCount := 0, checkIn := "ci",
                  checkOut := "co", totalCost := 300, userId := "u1" } }
      false).2
      = [{ id := "h1", name := "H", pricePerNight := 100,
           bookings := [{ firstName := "f", lastName := "l", email := "e@x",
                          adultCount := 2, childCount := 0, checkIn := "ci",
                          checkOut := "co", totalCost := 300,
                          userId := "u1" }] }] := by
  refine ⟨rfl, by decide, rfl⟩

/-- C2 (amended): when all checks pass and e-mail delivery fails, the
already-appended booking record stays (no rollback), but the operation
reports a 500 failure to the caller instead of success. -/
theorem email_failure_keeps_booking (intents : List PaymentIntent)
    (hotels : List Hotel) (req : ConfirmRequest) (pi : PaymentIntent)
    (hret : retrieveIntent intents req.paymentIntentId = some pi)
    (hhid : pi.metadataHotelId = req.hotelIdParam)
    (huid : pi.metadataUserId = req.authUserId)
    (hst : pi.status = "succeeded")
    (hex : hotelExists hotels req.hotelIdParam = true) :
    (confirmBooking intents hotels req false).1 = .serverError ∧
    bookingCount (confirmBooking intents hotels req false).2 req.hotelIdParam
      = bookingCount hotels req.hotelIdParam + 1 := by
  have hstep :=
    confirmBooking_checks_pass intents hotels req false pi hret hhid huid hst hex
  rw [hstep]
  exact ⟨rfl, bookingCount_pushBooking _ _ _ hex⟩

/-- C2, witness for the amended theorem at a concrete store. -/
theorem email_failure_keeps_booking_witness :
    (confirmBooking
      [{ id := "pi1", status := "succeeded", metadataHotelId := "h1",
         metadataUserId := "u1", clientSecret := some "cs" }]
      [{ id := "h1", name := "H", pricePerNight := 100, bookings := [] }]
      { hotelIdParam := "h1", authUserId := "u1", paymentIntentId := "pi1",
        body := { firstName := "f", lastName := "l", email := "e@x",
                  adultCount := 2, childCount := 0, checkIn := "ci",
                  checkOut := "co", totalCost := 300, userId := "u1" } }
      false).1 = ConfirmResult.serverError ∧
    bookingCount
      (confirmBooking
        [{ id := "pi1", status := "succeeded", metadataHotelId := "h1",
           metadataUserId := "u1", clientSecret := some "cs" }]
        [{ id := "h1", name := "H", pricePerNight := 100, bookings := [] }]
        { hotelIdParam := "h1", authUserId := "u1", paymentIntentId := "pi1",
          body := { firstName := "f", lastName := "l", email := "e@x",
                    adultCount := 2, childCount := 0, checkIn := "ci",
                    checkOut := "co", totalCost := 300, userId := "u1" } }
        false).2 "h1"
      = bookingCount
          [{ id := "h1", name := "H", pricePerNight := 100, bookings := [] }]
          "h1" + 1 :=
  email_failure_keeps_booking _ _ _ _ rfl rfl rfl rfl rfl

/-- C3: the workflow does not deduplicate by authorization id — with a
fixed succeeded intent whose metadata matches, each call reports success
and `n` repeated calls append `n` further booking records. -/
theorem confirm_no_dedup (intents : List PaymentIntent)
    (hotels : List Hotel) (req : ConfirmRequest) (pi : PaymentIntent)
    (n : Nat)
    (hret : retrieveIntent intents req.paymentIntentId = some pi)
    (hhid : pi.metadataHotelId = req.hotelIdParam)
    (huid : pi.metadataUserId = req.authUserId)
    (hst : pi.status = "succeeded")
    (hex : hotelExists hotels req.hotelIdParam = true) :
    (confirmBooking intents hotels req true).1 = .success ∧
    bookingCount (confirmNTimes intents req true n hotels) req.hotelIdParam
      = bookingCount hotels req.hotelIdParam + n := by
  constructor
  · rw [confirmBooking_checks_pass intents hotels req true pi hret hhid huid
        hst hex]
    rfl
  · exact confirmNTimes_count intents req pi hret hhid huid hst n hotels hex

/-- C3, witness: two repeated confirmations against one authorization
yield two records. -/
theorem confirm_no_dedup_witness :
    (confirmBooking
      [{ id := "pi1", status := "succeeded", metadataHotelId := "h1",
         metadataUserId := "u1", clientSecret := some "cs" }]
      [{ id := "h1", name := "H", pricePerNight := 100, bookings := [] }]
      { hotelIdParam := "h1", authUserId := "u1", paymentIntentId := "pi1",
        body := { firstName := "f", lastName := "l", email := "e@x",
                  adultCount := 2, childCount := 0, checkIn := "ci",
                  checkOut := "co", totalCost := 300, userId := "u1" } }
      true).1 = ConfirmResult.success ∧
    bookingCount
      (confirmNTimes
        [{ id := "pi1", status := "succeeded", metadataHotelId := "h1",
           metadataUserId := "u1", clientSecret := some "cs" }]
        { hotelIdParam := "h1", authUserId := "u1", paymentIntentId := "pi1",
          body := { firstName := "f", lastName := "l", email := "e@x",
                    adultCount := 2, childCount := 0, checkIn := "ci",
                    checkOut := "co", totalCost := 300, userId := "u1" } }
        true 2
        [{ id := "h1", name := "H", pricePerNight := 100, bookings := [] }])
      "h1"
      = bookingCount
          [{ id := "h1", name := "H", pricePerNight := 100, bookings := [] }]
          "h1" + 2 :=
  confirm_no_dedup _ _ _ _ 2 rfl rfl rfl rfl rfl

/-- C6, counterexample: a resolving intent whose status is "processing"
but whose metadata points at another hotel fails with the mismatch error,
not with `PaymentNotSucceeded` — the metadata check runs first. -/
theorem mismatch_masks_payment_status :
    (confirmBooking
      [{ id := "pi1", status := "processing", metadataHotelId := "h2",
         metadataUserId := "u1", clientSecret := some "cs" }]
      [{ id := "h1", name := "H", pricePerNight := 100, bookings := [] }]
      { hotelIdParam := "h1", authUserId := "u1", paymentIntentId := "pi1",
        body := { firstName := "f", lastName := "l", email := "e@x",
                  adultCount := 2, childCount := 0, checkIn := "ci",
                  checkOut := "co", totalCost := 300, userId := "u1" } }
      true).1 = ConfirmResult.contextMismatch ∧
    ¬ ∃ m, (confirmBooking
      [{ id := "pi1", status := "processing", metadataHotelId := "h2",
         metadataUserId := "u1", clientSecret := some "cs" }]
      [{ id := "h1", name := "H", pricePerNight := 100, bookings := [] }]
      { hotelIdParam := "h1", authUserId := "u1", paymentIntentId := "pi1",
        body := { firstName := "f", lastName := "l", email := "e@x",
                  adultCount := 2, childCount := 0, checkIn := "ci",
                  checkOut := "co", totalCost := 300, userId := "u1" } }
      true).1 = ConfirmResult.paymentNotSucceeded m := by
  refine ⟨rfl, ?_⟩
  rintro ⟨m, hm⟩
  rw [show (confirmBooking
      [{ id := "pi1", status := "processing", metadataHotelId := "h2",
         metadataUserId := "u1", clientSecret := some "cs" }]
      [{ id := "h1", name := "H", pricePerNight := 100, bookings := [] }]
      { hotelIdParam := "h1", authUserId := "u1", paymentIntentId := "pi1",
        body := { firstName := "f", lastName := "l", email := "e@x",
                  adultCount := 2, childCount := 0, checkIn := "ci",
                  checkOut := "co", totalCost := 300, userId := "u1" } }
      true).1 = ConfirmResult.contextMismatch from rfl] at hm
  exact ConfirmResult.noConfusion hm

/-- C6 (amended): for a resolving intent whose metadata matches the
request context, any status other than "succeeded" fails with the
payment-not-succeeded error whose message embeds the literal provider
status string, and the hotel store is returned unchanged. -/
theorem nonsucceeded_fails_with_status (intents : List PaymentIntent)
    (hotels : List Hotel) (req : ConfirmRequest) (emailOk : Bool)
    (pi : PaymentIntent)
    (hret : retrieveIntent intents req.paymentIntentId = some pi)
    (hhid : pi.metadataHotelId = req.hotelIdParam)
    (huid : pi.metadataUserId = req.authUserId)
    (hst : pi.status ≠ "succeeded") :
    confirmBooking intents hotels req emailOk =
      (.paymentNotSucceeded
        ("payment intent not succeeded. Status: " ++ pi.status), hotels) ∧
    ∃ pre post,
      "payment intent not succeeded. Status: " ++ pi.status
        = pre ++ pi.status ++ post := by
  refine ⟨?_, "payment intent not succeeded. Status: ", "", by simp⟩
  simp [confirmBooking, hret, hhid, huid, hst]

/-- C6, witness for the amended theorem with status "processing". -/
theorem nonsucceeded_fails_with_status_witness :
    confirmBooking
      [{ id := "pi1", status := "processing", metadataHotelId := "h1",
         metadataUserId := "u1", clientSecret := some "cs" }]
      [{ id := "h1", name := "H", pricePerNight := 100, bookings := [] }]
      { hotelIdParam := "h1", authUserId := "u1", paymentIntentId := "pi1",
        body := { firstName := "f", lastName := "l", email := "e@x",
                  adultCount := 2, childCount := 0, checkIn := "ci",
                  checkOut := "co", totalCost := 300, userId := "u1" } }
      true
      = (.paymentNotSucceeded
          ("payment intent not succeeded. Status: " ++ "processing"),
         [{ id := "h1", name := "H", pricePerNight := 100,
            bookings := [] }]) ∧
    ∃ pre post,
      "payment intent not succeeded. Status: " ++ "processing"
        = pre ++ "processing" ++ post :=
  nonsucceeded_fails_with_status
    [{ id := "pi1", status := "processing", metadataHotelId := "h1",
       metadataUserId := "u1", clientSecret := some "cs" }]
    [{ id := "h1", name := "H", pricePerNight := 100, bookings := [] }]
    { hotelIdParam := "h1", authUserId := "u1", paymentIntentId := "pi1",
      body := { firstName := "f", lastName := "l", email := "e@x",
                adultCount := 2, childCount := 0, checkIn := "ci",
                checkOut := "co", totalCost := 300, userId := "u1" } }
    true
    { id := "pi1", status := "processing", metadataHotelId := "h1",
      metadataUserId := "u1", clientSecret := some "cs" }
    rfl rfl rfl (by decide)

/-- C8: phase 1 computes `totalCost = pricePerNight * numberOfNights`,
asks the provider for `totalCost * 100` minor units, and returns the
computed total to the caller. -/
theorem create_intent_amount (hotels : List Hotel) (hid : String)
    (nights : Nat) (auid : String) (provider : StripeCreateResult)
    (hotel : Hotel) (secret : String)
    (hfind : findHotel hotels hid = some hotel)
    (hsec : provider.clientSecret = some secret) :
    createIntent hotels hid nights auid provider =
      (.ok { paymentIntentId := provider.id, clientSecret := secret,
             totalCost := hotel.pricePerNight * nights },
       some { amount := hotel.pricePerNight * nights * 100,
              currency := "gbp", metadataHotelId := hid,
              metadataUserId := auid }) := by
  simp [createIntent, hfind, hsec]

/-- C8, witness: nightly rate 100 and 3 nights give total 300 and a
30000-minor-unit authorization. -/
theorem create_intent_amount_witness :
    createIntent
      [{ id := "h1", name := "H", pricePerNight := 100, bookings := [] }]
      "h1" 3 "u1" { id := "pi1", clientSecret := some "cs" }
      = (.ok { paymentIntentId := "pi1", clientSecret := "cs",
               totalCost := 300 },
         some { amount := 30000, currency := "gbp",
                metadataHotelId := "h1", metadataUserId := "u1" }) :=
  create_intent_amount
    [{ id := "h1", name := "H", pricePerNight := 100, bookings := [] }]
    "h1" 3 "u1" { id := "pi1", clientSecret := some "cs" }
    { id := "h1", name := "H", pricePerNight := 100, bookings := [] }
    "cs" rfl rfl

/-- C10: the persisted booking's userId is the token-derived identity;
two confirmation requests identical except for the body's userId field
behave identically, so that field has no influence on the outcome or on
the stored record. -/
theorem booking_userId_from_token (intents : List PaymentIntent)
    (hotels : List Hotel) (hid auid pid : String) (body : Booking)
    (u₁ u₂ : String) (emailOk : Bool) :
    confirmBooking intents hotels
      { hotelIdParam := hid, authUserId := auid, paymentIntentId := pid,
        body := { body with userId := u₁ } } emailOk
      = confirmBooking intents hotels
          { hotelIdParam := hid, authUserId := auid, paymentIntentId := pid,
            body := { body with userId := u₂ } } emailOk ∧
    (mkBooking body auid).userId = auid := by
  refine ⟨?_, rfl⟩
  have hb : ∀ u : String,
      mkBooking { body with userId := u } auid = mkBooking body auid := by
    intro u
    cases body
    rfl
  simp only [confirmBooking, hb]

end HotelApp
